import Mathlib

/-!
Shallow embedding of the speedometer corrector firmware
(src/firmware/speed_correction.ino).

Machine integers are modelled as Nat with explicit reduction modulo
2 ^ 16 (uint16_t registers, timer counter) and 2 ^ 32 (uint32_t period
variables) at the points where the C code can overflow.  The C float and
double values (frequencies, correction table entries) are modelled as
exact rationals.  The raw byte image of the correction table used by the
EEPROM persistence code is modelled as a list of byte values.
-/

namespace SpeedCorrector

/-- TICK_VALUE = (1/16000000.0) * 64.0 : duration of one timer tick. -/
def tickValue : ℚ := (1 / 16000000) * 64

/-- PULSE_PER_KM = 2683. -/
def pulsePerKm : ℚ := 2683

/-- FREQ_50 = (PULSE_PER_KM * 50.0) / 3600.0 -/
def freq50 : ℚ := pulsePerKm * 50 / 3600

/-- FREQ_100 = (PULSE_PER_KM * 100.0) / 3600.0 -/
def freq100 : ℚ := pulsePerKm * 100 / 3600

/-- FREQ_150 = (PULSE_PER_KM * 150.0) / 3600.0 -/
def freq150 : ℚ := pulsePerKm * 150 / 3600

/-- struct CorrectionFreq { float inputFreq; float outputFreq; } -/
structure CorrectionFreq where
  inputFreq : ℚ
  outputFreq : ℚ
deriving DecidableEq, Repr

/-- gFreqTable initial value: {0,0}, {FREQ_50,FREQ_50}, {FREQ_100,FREQ_100},
{FREQ_150,FREQ_150}. -/
def defaultFreqTable : List CorrectionFreq :=
  [⟨0, 0⟩, ⟨freq50, freq50⟩, ⟨freq100, freq100⟩, ⟨freq150, freq150⟩]

/-- The volatile globals shared between the interrupt handlers and loop,
plus gLastInputFreq and the OCR1A compare register. -/
structure Globals where
  lastCounter : Nat
  inputPeriod : Nat
  outputPeriod : Nat
  overflowCounter : Nat
  stopped : Bool
  captureLive : Bool
  lastOutput : Bool
  lastInputFreq : ℚ
  ocr1a : Nat
deriving DecidableEq, Repr

/-- ISR(TIMER1_CAPT_vect): the input-capture interrupt handler.  tc1 is the
captured counter value ICR1, tov1 models the pending-overflow flag
TIFR1 & _BV(TOV1) tested in the captureLive branch, tov0 models the flag
TIFR1 & _BV(TOV0) tested in the not-live branch (the source really reads
TOV0 there).  In the live branch the period is accumulated in a uint32
with int32 differences, reduced modulo 2 ^ 32; assigning -1 to the
uint16 counter leaves 2 ^ 16 - 1. -/
def captureISR (g : Globals) (tc1 : Nat) (tov1 tov0 : Bool) : Globals :=
  if g.captureLive then
    let p1 : Nat := (((tc1 : Int) - (g.lastCounter : Int)).emod (2 ^ 32)).toNat
    let p2 : Nat := (p1 + g.overflowCounter * 2 ^ 16) % 2 ^ 32
    if tov1 ∧ tc1 < 2 ^ 16 - 1 then
      { g with inputPeriod := (p2 + 2 ^ 16) % 2 ^ 32, overflowCounter := 2 ^ 16 - 1,
               lastCounter := tc1, captureLive := true }
    else
      { g with inputPeriod := p2, overflowCounter := 0,
               lastCounter := tc1, captureLive := true }
  else
    if tov0 ∧ tc1 < 2 ^ 16 - 1 then
      { g with overflowCounter := 2 ^ 16 - 1, lastCounter := tc1,
               captureLive := true, lastOutput := !g.lastOutput }
    else
      { g with overflowCounter := 0, lastCounter := tc1,
               captureLive := true, lastOutput := !g.lastOutput }

/-- ISR(TIMER1_OVF_vect): ++gOverflowCounter on a uint16. -/
def overflowISR (g : Globals) : Globals :=
  { g with overflowCounter := (g.overflowCounter + 1) % 2 ^ 16 }

/-- ISR(TIMER1_COMPA_vect): when not stopped, toggle the output and program
OCR1A = OCR1A + gOutputPeriod (16-bit register); when stopped do nothing. -/
def compaISR (g : Globals) : Globals :=
  if g.stopped then g
  else
    { g with lastOutput := !g.lastOutput,
             ocr1a := (g.ocr1a + g.outputPeriod) % 2 ^ 16 }

/-- The stop-detection predicate of the control loop:
overFlow >= 2 or period >= 0x10000. -/
def stopTriggered (overflow period : Nat) : Bool :=
  decide (2 ≤ overflow) || decide (2 ^ 16 ≤ period)

/-- MAX_VAR_PER_CYCLE = 2.5f. -/
def maxVarPerCycle : ℚ := 5 / 2

/-- The input-frequency outlier filter of the control loop: limit the change
from the previous value to MAX_VAR_PER_CYCLE in absolute value. -/
def filterFreq (last raw : ℚ) : ℚ :=
  if |raw - last| > maxVarPerCycle then
    if raw - last > 0 then last + maxVarPerCycle else last - maxVarPerCycle
  else raw

/-- Correction-range selection of the control loop: index 1 when
inFreq < gFreqTable[1].inputFreq, index 2 when inFreq < gFreqTable[2].inputFreq,
else index 3. -/
def selectIndex (tbl : List CorrectionFreq) (f : ℚ) : Nat :=
  if f < (tbl.getD 1 ⟨0, 0⟩).inputFreq then 1
  else if f < (tbl.getD 2 ⟨0, 0⟩).inputFreq then 2
  else 3

/-- Piecewise-linear interpolation of the control loop on the selected
segment: outFreq = (inFreq - t[i-1].in) / di * doo + t[i-1].out. -/
def interpFreq (tbl : List CorrectionFreq) (f : ℚ) : ℚ :=
  let i := selectIndex tbl f
  let a := tbl.getD (i - 1) ⟨0, 0⟩
  let b := tbl.getD i ⟨0, 0⟩
  (f - a.inputFreq) / (b.inputFreq - a.inputFreq) * (b.outputFreq - a.outputFreq)
    + a.outputFreq

/-- Conversion of a non-negative double to uint32 (truncation). -/
def ratTrunc (q : ℚ) : Nat := q.floor.toNat

/-- The 100 ms control-loop body of loop() in the NORMAL state: snapshot the
shared input state, detect the stop condition, derive and filter the input
frequency, evaluate the correction curve, and hand the half period to the
output scheduler (restarting it when it was stopped and the computed output
period is non-zero).  tcnt1 is the value of TCNT1 read when restarting. -/
def controlTick (tbl : List CorrectionFreq) (g : Globals) (tcnt1 : Nat) : Globals :=
  let period0 := g.inputPeriod
  let trig := stopTriggered g.overflowCounter period0
  let g1 := if trig then
      { g with outputPeriod := 0, inputPeriod := 0,
               stopped := true, captureLive := false }
    else g
  let period := if trig then 0 else period0
  let inFreqRaw : ℚ := if period ≠ 0 then 1 / ((period : ℚ) * 2 * tickValue) else 0
  let inFreq := filterFreq g.lastInputFreq inFreqRaw
  let outFreq := interpFreq tbl inFreq
  let outputPeriodFull : Nat :=
    if period ≠ 0 then ratTrunc ((1 / outFreq) / tickValue) else 0
  let g2 := { g1 with lastInputFreq := inFreq, outputPeriod := outputPeriodFull / 2 }
  if g1.stopped ∧ outputPeriodFull ≠ 0 then
    { g2 with ocr1a := (tcnt1 + outputPeriodFull / 2) % 2 ^ 16, stopped := false }
  else g2

/-- enum State { OPEN_CER_RAISE, OPEN_CER_LOWER, NORMAL } -/
inductive State where
  | OPEN_CER_RAISE
  | OPEN_CER_LOWER
  | NORMAL
deriving DecidableEq, Repr

/-- State gState = NORMAL; the boot value of the self-test state machine. -/
def gStateInit : State := State.NORMAL

/-- The frequency synthesized in the OPEN_CER_RAISE branch:
freq = 3 + 300.0 * (now / 1000.0). -/
def rampRaiseFreq (now : Nat) : ℚ := 3 + 300 * ((now : ℚ) / 1000)

/-- The state transitions performed by loop(): RAISE goes to LOWER once
now > 1000, LOWER goes to NORMAL once now > 2000, NORMAL never changes. -/
def nextState (s : State) (now : Nat) : State :=
  match s with
  | State.OPEN_CER_RAISE =>
      if 1000 < now then State.OPEN_CER_LOWER else State.OPEN_CER_RAISE
  | State.OPEN_CER_LOWER =>
      if 2000 < now then State.NORMAL else State.OPEN_CER_LOWER
  | State.NORMAL => State.NORMAL

/-- skip of leading or trailing blanks inside myParseInt:
while (it != last and *it == ' ') ++it; -/
def skipSpaces : List Char → List Char
  | ' ' :: rest => skipSpaces rest
  | l => l

/-- The digit-accumulation loop of myParseInt.  Note that the source reads
the character with *it++ before testing it, so on a non-digit the loop
breaks with the iterator already advanced past that character. -/
def parseDigits : Int → List Char → Int × List Char
  | acc, [] => (acc, [])
  | acc, c :: rest =>
    if '0' ≤ c ∧ c ≤ '9' then parseDigits (acc * 10 + ((c.toNat : Int) - 48)) rest
    else (acc, rest)

/-- int32_t myParseInt(const char*& it, const char* last): returns the parsed
value and the remaining characters. -/
def myParseInt (l : List Char) : Int × List Char :=
  let t := parseDigits 0 (skipSpaces l)
  (t.1, skipSpaces t.2)

/-- Result of processing one configuration command line: the (possibly
updated) table, whether an update was applied, and which of the three
failure diagnostics were printed. -/
structure CmdOut where
  table : List CorrectionFreq
  updated : Bool
  failIndexDiag : Bool
  failInputDiag : Bool
  failOutputDiag : Bool
deriving DecidableEq, Repr

/-- The non-SAVE command branch of loop(): parse index, input and output
values with myParseInt, require the iterator to be strictly before the end
after the first two numbers and exactly at the end after the third, require
index < 4, and on success set gFreqTable[index] to
(inVal / 1000, outVal / 1000). -/
def applyCmd (line : List Char) (tbl : List CorrectionFreq) : CmdOut :=
  let r0 := myParseInt line
  let index : Int := r0.1
  let ok1 : Bool := !r0.2.isEmpty
  let r1 := myParseInt r0.2
  let inVal : ℚ := (r1.1 : ℚ) / 1000
  let ok2 : Bool := ok1 && !r1.2.isEmpty
  let r2 := myParseInt r1.2
  let outVal : ℚ := (r2.1 : ℚ) / 1000
  let ok3 : Bool := ok2 && r2.2.isEmpty
  let ok : Bool := ok3 && decide (index < 4)
  { table := if ok then tbl.set index.toNat ⟨inVal, outVal⟩ else tbl
    updated := ok
    failIndexDiag := !ok1
    failInputDiag := !ok2
    failOutputDiag := !ok3 }

/-- sizeof(gFreqTable) = 4 entries x 2 floats x 4 bytes = 32 bytes. -/
def tableImageSize : Nat := 32

/-- saveConf(): write the magic bytes S, N, X at EEPROM addresses 0, 1, 2,
then the raw byte image of gFreqTable at addresses 3..34.  The table is
modelled by its byte image tbl; rom is the EEPROM content. -/
def saveConf (tbl : List Nat) (rom : Nat → Nat) : Nat → Nat :=
  fun a =>
    if a = 0 then 83
    else if a = 1 then 78
    else if a = 2 then 88
    else if a < 3 + tableImageSize then tbl.getD (a - 3) 0
    else rom a

/-- loadConf(): read the three magic bytes; on mismatch return with the
in-memory table unchanged (and report no configuration found, modelled by
the false flag); on match overwrite the table byte image from EEPROM. -/
def loadConf (rom : Nat → Nat) (tbl : List Nat) : List Nat × Bool :=
  if rom 0 = 83 ∧ rom 1 = 78 ∧ rom 2 = 88 then
    (((List.range tableImageSize).map fun i => rom (3 + i)), true)
  else (tbl, false)

/-- An all-zero EEPROM content, used as a concrete store. -/
def zeroRom : Nat → Nat := fun _ => 0

/-- A concrete 32-byte table image. -/
def sampleImage : List Nat := List.range 32

end SpeedCorrector

namespace SpeedCorrector

/-! Helper lemmas shared by the claim theorems. -/

/-- Value of a signed remainder by a positive modulus when the dividend is
within one modulus of the representable range. -/
lemma int_emod_cases (M d : Int) (h1 : -M ≤ d) (h2 : d < M) :
    d.emod M = if 0 ≤ d then d else d + M := by
  split_ifs with h
  · exact Int.emod_eq_of_lt h h2
  · calc d.emod M = (d + M * 1).emod M := (@Int.add_mul_emod_self_left d M 1).symm
    _ = d + M := by rw [mul_one]; exact Int.emod_eq_of_lt (by omega) (by omega)

/-- The outlier filter moves the stored frequency by at most
MAX_VAR_PER_CYCLE in absolute value. -/
lemma filterFreq_abs_le (last raw : ℚ) :
    |filterFreq last raw - last| ≤ maxVarPerCycle := by
  unfold filterFreq
  split_ifs with h1 h2
  · rw [show last + maxVarPerCycle - last = maxVarPerCycle by ring]
    rw [abs_of_nonneg (by norm_num [maxVarPerCycle])]
  · rw [show last - maxVarPerCycle - last = -maxVarPerCycle by ring]
    rw [abs_neg, abs_of_nonneg (by norm_num [maxVarPerCycle])]
  · exact le_of_not_lt h1

/-- The raw (unfiltered) input frequency derived by one control tick from
the snapshotted period, after stop detection. -/
def tickRawFreq (g : Globals) : ℚ :=
  if (if stopTriggered g.overflowCounter g.inputPeriod then 0 else g.inputPeriod) ≠ 0 then
    1 / (((if stopTriggered g.overflowCounter g.inputPeriod then 0 else g.inputPeriod) : ℚ)
      * 2 * tickValue)
  else 0

/-- The stored gLastInputFreq after one control tick is the filter applied
to the previous stored value and the raw tick frequency. -/
lemma tick_lastInputFreq (tbl : List CorrectionFreq) (g : Globals) (t : Nat) :
    (controlTick tbl g t).lastInputFreq = filterFreq g.lastInputFreq (tickRawFreq g) := by
  simp only [controlTick, tickRawFreq, apply_ite Globals.lastInputFreq]
  split_ifs <;> rfl

/-! Claim theorems. -/

/-- C1 counterexample: the self-test ramp state machine is NOT created at
boot in RampUp; the source initializes gState to NORMAL, so the ramp
branches are dormant for the whole run. -/
theorem boot_state_not_rampup :
    gStateInit = State.NORMAL ∧ gStateInit ≠ State.OPEN_CER_RAISE :=
  ⟨rfl, by decide⟩

/-- C1 (amended): at boot the state machine is created in Normal (the
self-test ramp never runs); the ramp logic itself, when in RampUp,
synthesizes exactly 3 Hz at elapsed time 0, stays in RampUp until the
elapsed time exceeds 1000, then transitions to RampDown, which transitions
to Normal once the elapsed time exceeds 2000, and Normal is terminal. -/
theorem selftest_state_machine :
    gStateInit = State.NORMAL
    ∧ rampRaiseFreq 0 = 3
    ∧ (∀ n : Nat, nextState State.NORMAL n = State.NORMAL)
    ∧ (∀ n : Nat, n ≤ 1000 → nextState State.OPEN_CER_RAISE n = State.OPEN_CER_RAISE)
    ∧ (∀ n : Nat, 1000 < n → nextState State.OPEN_CER_RAISE n = State.OPEN_CER_LOWER)
    ∧ (∀ n : Nat, n ≤ 2000 → nextState State.OPEN_CER_LOWER n = State.OPEN_CER_LOWER)
    ∧ (∀ n : Nat, 2000 < n → nextState State.OPEN_CER_LOWER n = State.NORMAL) := by
  refine ⟨rfl, by norm_num [rampRaiseFreq], fun n => rfl, ?_, ?_, ?_, ?_⟩
  all_goals intro n hn
  all_goals simp [nextState]
  all_goals omega

/-- C1 witness: concrete transitions of the amended state machine. -/
theorem selftest_state_machine_witness :
    nextState State.OPEN_CER_RAISE 1500 = State.OPEN_CER_LOWER
    ∧ nextState State.OPEN_CER_LOWER 2500 = State.NORMAL
    ∧ nextState State.NORMAL 5000 = State.NORMAL :=
  ⟨selftest_state_machine.2.2.2.2.1 1500 (by norm_num),
   selftest_state_machine.2.2.2.2.2.2 2500 (by norm_num),
   selftest_state_machine.2.2.1 5000⟩

/-- C2: evaluation of the command handler at the claimed inputs plus the
failing inputs.  The valid command sets the table point; the out-of-range
example and the non-numeric example are rejected without a table change
(and the out-of-range index 5 is rejected with no diagnostic flag at all);
but the line with index 0 IS accepted and overwrites table entry 0, and a
line with one garbage character attached to the last number is accepted,
contradicting the claimed acceptance condition. -/
theorem command_parser_eval :
    (applyCmd ("2 72000 75000".toList) defaultFreqTable).table
      = defaultFreqTable.set 2 ⟨72, 75⟩
    ∧ applyCmd ("5 1 1".toList) defaultFreqTable
      = ⟨defaultFreqTable, false, false, false, false⟩
    ∧ applyCmd ("1 abc 2000".toList) defaultFreqTable
      = ⟨defaultFreqTable, false, false, false, true⟩
    ∧ (applyCmd ("0 1 1".toList) defaultFreqTable).table
      = defaultFreqTable.set 0 ⟨1 / 1000, 1 / 1000⟩
    ∧ (applyCmd ("0 1 1".toList) defaultFreqTable).table ≠ defaultFreqTable
    ∧ (applyCmd ("1 1000 2000x".toList) defaultFreqTable).table
      = defaultFreqTable.set 1 ⟨1, 2⟩ := by
  have h2 : "2 72000 75000".toList
      = ['2', ' ', '7', '2', '0', '0', '0', ' ', '7', '5', '0', '0', '0'] := rfl
  have h5 : "5 1 1".toList = ['5', ' ', '1', ' ', '1'] := rfl
  have ha : "1 abc 2000".toList
      = ['1', ' ', 'a', 'b', 'c', ' ', '2', '0', '0', '0'] := rfl
  have h0 : "0 1 1".toList = ['0', ' ', '1', ' ', '1'] := rfl
  have hx : "1 1000 2000x".toList
      = ['1', ' ', '1', '0', '0', '0', ' ', '2', '0', '0', '0', 'x'] := rfl
  refine ⟨?_, ?_, ?_, ?_, ?_, ?_⟩
  · rw [h2]
    simp [applyCmd, myParseInt, parseDigits, skipSpaces]
    norm_num
  · rw [h5]
    simp [applyCmd, myParseInt, parseDigits, skipSpaces]
  · rw [ha]
    simp [applyCmd, myParseInt, parseDigits, skipSpaces]
  · rw [h0]
    simp [applyCmd, myParseInt, parseDigits, skipSpaces]
  · rw [h0]
    simp [applyCmd, myParseInt, parseDigits, skipSpaces, defaultFreqTable]
  · rw [hx]
    simp [applyCmd, myParseInt, parseDigits, skipSpaces]
    norm_num

/-- C3 counterexample: a tick whose snapshot has overflowCounter = 5
triggers the stop condition, yet the overflow counter after the tick is
still 5, not 0: the stop branch does not clear gOverflowCounter. -/
theorem stop_leaves_overflow_counter :
    stopTriggered 5 0 = true
    ∧ (controlTick defaultFreqTable
        ⟨0, 0, 7, 5, false, true, false, 0, 0⟩ 0).overflowCounter = 5
    ∧ (controlTick defaultFreqTable
        ⟨0, 0, 7, 5, false, true, false, 0, 0⟩ 0).overflowCounter ≠ 0 := by
  refine ⟨rfl, ?_, ?_⟩ <;> simp [controlTick, stopTriggered]

/-- C3 (amended): the stop condition triggers if and only if the
snapshotted overflow counter is at least 2 or the snapshotted period is at
least 2 ^ 16; when it triggers, the shared input period is cleared to 0,
the output period is forced to 0, the stopped flag is set and captureLive
is cleared, while the overflow counter is left unchanged (it is only reset
by the next capture interrupt); when it does not trigger, the tick leaves
the input period and captureLive unchanged and never newly stops. -/
theorem stop_condition_spec (tbl : List CorrectionFreq) (g : Globals) (t : Nat) :
    (stopTriggered g.overflowCounter g.inputPeriod = true →
      (controlTick tbl g t).inputPeriod = 0
      ∧ (controlTick tbl g t).outputPeriod = 0
      ∧ (controlTick tbl g t).stopped = true
      ∧ (controlTick tbl g t).captureLive = false
      ∧ (controlTick tbl g t).overflowCounter = g.overflowCounter)
    ∧ (stopTriggered g.overflowCounter g.inputPeriod = false →
      (controlTick tbl g t).inputPeriod = g.inputPeriod
      ∧ (controlTick tbl g t).captureLive = g.captureLive
      ∧ ((controlTick tbl g t).stopped = true → g.stopped = true)) := by
  constructor
  · intro h
    simp [controlTick, h]
  · intro h
    simp [controlTick, h]
    split_ifs <;> simp_all

/-- C3 witness: the amended stop behavior at a concrete triggering state. -/
theorem stop_condition_spec_witness :
    (controlTick defaultFreqTable ⟨0, 0, 7, 5, false, true, false, 0, 0⟩ 0).stopped = true
    ∧ (controlTick defaultFreqTable ⟨0, 0, 7, 5, false, true, false, 0, 0⟩ 0).outputPeriod = 0 :=
  ⟨((stop_condition_spec defaultFreqTable ⟨0, 0, 7, 5, false, true, false, 0, 0⟩ 0).1
      rfl).2.2.1,
   ((stop_condition_spec defaultFreqTable ⟨0, 0, 7, 5, false, true, false, 0, 0⟩ 0).1
      rfl).2.1⟩

/-- C4: with a previous valid capture (captureLive = true) and 16-bit
counter values t0 (previous) and t1 (current): when no wrap occurred
between the edges (no overflow counted, no overflow pending), the computed
input period is exactly t1 - t0; when exactly one wrap occurred (either
already counted by the overflow interrupt, or still pending with the
capture read after the wrap), it is exactly (t1 + 2 ^ 16) - t0. -/
theorem capture_period_exact (g : Globals) (tc1 : Nat) (tov1 tov0 : Bool)
    (hlive : g.captureLive = true) (h0 : g.lastCounter < 2 ^ 16) (h1 : tc1 < 2 ^ 16) :
    ((g.overflowCounter = 0 ∧ tov1 = false ∧ g.lastCounter ≤ tc1) →
      (captureISR g tc1 tov1 tov0).inputPeriod = tc1 - g.lastCounter)
    ∧ (((g.overflowCounter = 1 ∧ tov1 = false) ∨
        (g.overflowCounter = 0 ∧ tov1 = true ∧ tc1 < 2 ^ 16 - 1)) →
      (captureISR g tc1 tov1 tov0).inputPeriod = tc1 + 2 ^ 16 - g.lastCounter) := by
  have hm := int_emod_cases 4294967296 ((tc1 : Int) - (g.lastCounter : Int))
    (by omega) (by omega)
  constructor
  · rintro ⟨ho, ht, hle⟩
    simp [captureISR, hlive, ho, ht]
    rw [hm]
    split_ifs with h
    · omega
    · omega
  · rintro (⟨ho, ht⟩ | ⟨ho, ht, htc⟩)
    · simp [captureISR, hlive, ho, ht]
      rw [hm]
      split_ifs with h
      · omega
      · omega
    · have htc2 : tc1 < 65535 := by omega
      simp [captureISR, hlive, ho, ht, htc2]
      rw [hm]
      split_ifs with h
      · omega
      · omega

/-- A live capture state with previous counter 100 and no counted wrap. -/
def gCapA : Globals := ⟨100, 0, 0, 0, false, true, false, 0, 0⟩

/-- A live capture state with previous counter 500 and one counted wrap. -/
def gCapB : Globals := ⟨500, 0, 0, 1, false, true, false, 0, 0⟩

/-- C4 witness: concrete period computations in both wrap cases. -/
theorem capture_period_exact_witness :
    (captureISR gCapA 500 false false).inputPeriod = 400
    ∧ (captureISR gCapB 100 false false).inputPeriod = 100 + 2 ^ 16 - 500 :=
  ⟨(capture_period_exact gCapA 500 false false rfl (by decide) (by decide)).1
      ⟨rfl, rfl, by decide⟩,
   (capture_period_exact gCapB 100 false false rfl (by decide) (by decide)).2
      (Or.inl ⟨rfl, rfl⟩)⟩

/-- C5: the outlier filter changes the stored frequency by at most
MAX_VAR_PER_CYCLE = 2.5 Hz per tick in absolute value; when the raw change
exceeds the bound the stored value moves by exactly the maximum step in
the direction of the change; and on every control tick the stored
gLastInputFreq moves by at most that bound. -/
theorem filter_rate_limit (last raw : ℚ) (tbl : List CorrectionFreq)
    (g : Globals) (t : Nat) :
    |filterFreq last raw - last| ≤ maxVarPerCycle
    ∧ (raw - last > maxVarPerCycle → filterFreq last raw = last + maxVarPerCycle)
    ∧ (last - raw > maxVarPerCycle → filterFreq last raw = last - maxVarPerCycle)
    ∧ |(controlTick tbl g t).lastInputFreq - g.lastInputFreq| ≤ maxVarPerCycle := by
  have hm : (0 : ℚ) < maxVarPerCycle := by norm_num [maxVarPerCycle]
  refine ⟨filterFreq_abs_le last raw, ?_, ?_, ?_⟩
  · intro h
    have hpos : raw - last > 0 := by linarith
    have habs : |raw - last| > maxVarPerCycle := by rw [abs_of_pos hpos]; exact h
    unfold filterFreq
    rw [if_pos habs, if_pos hpos]
  · intro h
    have hneg : raw - last < 0 := by linarith
    have habs : |raw - last| > maxVarPerCycle := by rw [abs_of_neg hneg]; linarith
    unfold filterFreq
    rw [if_pos habs, if_neg (not_lt.mpr (le_of_lt hneg))]
  · rw [tick_lastInputFreq tbl g t]
    exact filterFreq_abs_le _ _

/-- C5 witness: a raw jump from 0 to 10 Hz is limited to exactly 2.5 Hz. -/
theorem filter_rate_limit_witness :
    filterFreq 0 10 = 0 + maxVarPerCycle :=
  (filter_rate_limit 0 10 defaultFreqTable gCapA 0).2.1
    (by norm_num [maxVarPerCycle])

/-- C6: for a table with strictly increasing input frequencies and an input
frequency at least the first point, the selected segment index i is in
{1,2,3} with table[i-1].inputFreq <= f and either f < table[i].inputFreq or
i = 3 (clamping above the last point); and the interpolation evaluated at
each table input frequency yields exactly that point's output frequency
(continuity at segment joins). -/
theorem curve_selection_continuity (a b c d : CorrectionFreq) (f : ℚ)
    (hab : a.inputFreq < b.inputFreq) (hbc : b.inputFreq < c.inputFreq)
    (hcd : c.inputFreq < d.inputFreq) (hf : a.inputFreq ≤ f) :
    (1 ≤ selectIndex [a, b, c, d] f ∧ selectIndex [a, b, c, d] f ≤ 3)
    ∧ ([a, b, c, d].getD (selectIndex [a, b, c, d] f - 1) ⟨0, 0⟩).inputFreq ≤ f
    ∧ (f < ([a, b, c, d].getD (selectIndex [a, b, c, d] f) ⟨0, 0⟩).inputFreq
       ∨ (selectIndex [a, b, c, d] f = 3 ∧ c.inputFreq ≤ f))
    ∧ interpFreq [a, b, c, d] a.inputFreq = a.outputFreq
    ∧ interpFreq [a, b, c, d] b.inputFreq = b.outputFreq
    ∧ interpFreq [a, b, c, d] c.inputFreq = c.outputFreq
    ∧ interpFreq [a, b, c, d] d.inputFreq = d.outputFreq := by
  have hga : [a, b, c, d].getD 0 ⟨0, 0⟩ = a := rfl
  have hgb : [a, b, c, d].getD 1 ⟨0, 0⟩ = b := rfl
  have hgc : [a, b, c, d].getD 2 ⟨0, 0⟩ = c := rfl
  have hgd : [a, b, c, d].getD 3 ⟨0, 0⟩ = d := rfl
  refine ⟨?_, ?_, ?_, ?_, ?_, ?_, ?_⟩
  · unfold selectIndex
    split_ifs <;> omega
  · unfold selectIndex
    split_ifs with u1 u2
    · simpa [hga] using hf
    · simpa [hgb] using le_of_not_lt u1
    · simpa [hgc] using le_of_not_lt u2
  · unfold selectIndex
    split_ifs with u1 u2
    · exact Or.inl (by simpa [hgb] using u1)
    · exact Or.inl (by simpa [hgc] using u2)
    · exact Or.inr ⟨rfl, le_of_not_lt u2⟩
  · unfold interpFreq selectIndex
    rw [if_pos (by simpa [hgb] using hab)]
    simp [hga, hgb]
  · unfold interpFreq selectIndex
    rw [if_neg (by simp [hgb]), if_pos (by simpa [hgc] using hbc)]
    simp [hgb, hgc]
  · unfold interpFreq selectIndex
    rw [if_neg (by simpa [hgb] using not_lt.mpr (le_of_lt hbc)),
        if_neg (by simp [hgc])]
    simp [hgc, hgd]
  · unfold interpFreq selectIndex
    rw [if_neg (by simpa [hgb] using not_lt.mpr (le_of_lt (hbc.trans hcd))),
        if_neg (by simpa [hgc] using not_lt.mpr (le_of_lt hcd))]
    simp only [hgc, hgd]
    rw [div_self (sub_ne_zero.mpr (ne_of_gt hcd))]
    ring

/-- C6 witness: segment selection and continuity on the default table. -/
theorem curve_selection_continuity_witness :
    1 ≤ selectIndex defaultFreqTable freq50
    ∧ interpFreq defaultFreqTable freq50 = freq50
    ∧ interpFreq defaultFreqTable freq150 = freq150 := by
  have h1 := curve_selection_continuity ⟨0, 0⟩ ⟨freq50, freq50⟩ ⟨freq100, freq100⟩
    ⟨freq150, freq150⟩ freq50
    (by norm_num [freq50, pulsePerKm]) (by norm_num [freq50, freq100, pulsePerKm])
    (by norm_num [freq100, freq150, pulsePerKm]) (by norm_num [freq50, pulsePerKm])
  exact ⟨h1.1.1, h1.2.2.2.2.1, h1.2.2.2.2.2.2⟩

/-- C7: saveConf writes the magic bytes S, N, X at EEPROM addresses 0..2
followed by the raw byte image of the correction table, and loadConf on a
store just written by saveConf accepts the magic and reproduces the table
image bit for bit, for every table image and every prior store content. -/
theorem save_load_roundtrip (tbl : List Nat) (rom : Nat → Nat) (tbl0 : List Nat)
    (h : tbl.length = tableImageSize) :
    loadConf (saveConf tbl rom) tbl0 = (tbl, true)
    ∧ saveConf tbl rom 0 = 83
    ∧ saveConf tbl rom 1 = 78
    ∧ saveConf tbl rom 2 = 88
    ∧ (∀ i, i < tableImageSize → saveConf tbl rom (3 + i) = tbl.getD i 0) := by
  have m0 : saveConf tbl rom 0 = 83 := by simp [saveConf]
  have m1 : saveConf tbl rom 1 = 78 := by simp [saveConf]
  have m2 : saveConf tbl rom 2 = 88 := by simp [saveConf]
  have mi : ∀ i, i < tableImageSize → saveConf tbl rom (3 + i) = tbl.getD i 0 := by
    intro i hi
    have hi32 : i < 32 := by simpa [tableImageSize] using hi
    have e0 : ¬(3 + i = 0) := by omega
    have e1 : ¬(3 + i = 1) := by omega
    have e2 : ¬(3 + i = 2) := by omega
    have e3 : 3 + i < 3 + tableImageSize := by simp [tableImageSize]; omega
    simp [saveConf, e0, e1, e2, e3]
  refine ⟨?_, m0, m1, m2, mi⟩
  unfold loadConf
  rw [if_pos ⟨m0, m1, m2⟩]
  refine Prod.ext ?_ rfl
  simp only
  apply List.ext_getElem
  · simpa [tableImageSize] using h.symm
  · intro i h1 h2
    simp only [List.getElem_map, List.getElem_range]
    have hi : i < tableImageSize := by simpa using h1
    rw [mi i hi]
    have : tbl.getD i 0 = tbl[i] := List.getD_eq_getElem tbl 0 h2
    exact this

/-- C7 witness: a concrete 32-byte table image round-trips through an
all-zero store. -/
theorem save_load_roundtrip_witness :
    loadConf (saveConf sampleImage zeroRom) [] = (sampleImage, true) :=
  (save_load_roundtrip sampleImage zeroRom [] (by decide)).1

/-- C8: for every store whose first three bytes are not exactly S, N, X,
loadConf returns the in-memory table unchanged and reports that no
configuration was found. -/
theorem load_bad_magic_unchanged (rom : Nat → Nat) (tbl : List Nat)
    (h : ¬(rom 0 = 83 ∧ rom 1 = 78 ∧ rom 2 = 88)) :
    loadConf rom tbl = (tbl, false) := by
  unfold loadConf
  rw [if_neg h]

/-- C8 witness: an all-zero store fails the magic check and leaves a
concrete table unchanged. -/
theorem load_bad_magic_unchanged_witness :
    loadConf zeroRom [1, 2, 3] = ([1, 2, 3], false) :=
  load_bad_magic_unchanged zeroRom [1, 2, 3] (by decide)

/-- C9: in every compare-match interrupt, when not stopped the output pin
is toggled and the next compare target is OCR1A + gOutputPeriod, relative
to the previous scheduled match (the handler never reads the current
counter); when stopped, neither the pin state nor the compare target
changes. -/
theorem compare_match_isr_spec (g : Globals) :
    (g.stopped = true → compaISR g = g)
    ∧ (g.stopped = false →
      compaISR g = { g with lastOutput := !g.lastOutput,
                            ocr1a := (g.ocr1a + g.outputPeriod) % 2 ^ 16 }) := by
  constructor
  · intro h
    simp [compaISR, h]
  · intro h
    simp [compaISR, h]

/-- A stopped scheduler state. -/
def gStopEx : Globals := ⟨0, 0, 40, 0, true, false, false, 0, 7⟩

/-- A running scheduler state. -/
def gRunEx : Globals := ⟨0, 0, 40, 0, false, false, false, 0, 7⟩

/-- C9 witness: concrete behavior in the stopped and running states. -/
theorem compare_match_isr_spec_witness :
    compaISR gStopEx = gStopEx
    ∧ compaISR gRunEx = { gRunEx with lastOutput := !gRunEx.lastOutput,
                                      ocr1a := (gRunEx.ocr1a + gRunEx.outputPeriod) % 2 ^ 16 } :=
  ⟨(compare_match_isr_spec gStopEx).1 rfl, (compare_match_isr_spec gRunEx).2 rfl⟩

/-- C10: when a live capture observes a pending overflow with a counter
value below 0xffff, the handler assigns -1 to the unsigned 16-bit overflow
counter, leaving it at 0xffff = 65535; in that post-handler state the main
loop stop predicate (overflow >= 2) holds even though a valid capture just
occurred, and the pending overflow interrupt increments the counter back
to 0. -/
theorem overflow_bias_stop_trigger (g : Globals) (tc1 : Nat) (tov0 : Bool)
    (hlive : g.captureLive = true) (h : tc1 < 2 ^ 16 - 1) :
    (captureISR g tc1 true tov0).overflowCounter = 2 ^ 16 - 1
    ∧ stopTriggered (captureISR g tc1 true tov0).overflowCounter
        (captureISR g tc1 true tov0).inputPeriod = true
    ∧ (overflowISR (captureISR g tc1 true tov0)).overflowCounter = 0 := by
  have h2 : tc1 < 65535 := by omega
  refine ⟨?_, ?_, ?_⟩ <;> simp [captureISR, overflowISR, stopTriggered, hlive, h2]

/-- C10 witness: the overflow-bias state at a concrete capture. -/
theorem overflow_bias_stop_trigger_witness :
    (captureISR gCapA 10 true false).overflowCounter = 2 ^ 16 - 1
    ∧ stopTriggered (captureISR gCapA 10 true false).overflowCounter
        (captureISR gCapA 10 true false).inputPeriod = true
    ∧ (overflowISR (captureISR gCapA 10 true false)).overflowCounter = 0 :=
  overflow_bias_stop_trigger gCapA 10 false rfl (by decide)

end SpeedCorrector
